import Mathlib

/-!
Verification of the group-chat message service (src/routes/api/messages.js)
against its specification.

Modelling conventions for the shallow embedding:

* Document ids and timestamps are natural numbers with value equality; the
  database is an explicit state (lists of users, groups and messages, a
  fresh-id counter and a clock).
* Each Express handler body is a function from the database state and the
  request parameters to an `Except` value; the surrounding try/catch is a
  wrapper that turns a thrown error into the handler's 500 response.
* Store calls follow the driver semantics used by the code: `find` yields a
  list (an empty result is not an error), `findOne` yields an optional value
  (a missing document is not an error), `findOneAndDelete` removes the first
  match (its result is not inspected by the code), `findOneAndUpdate`
  updates the first match and yields the PRE-update document (the code
  passes no option to request the updated one).
* The expression `await User.findOne({username})._id` is modelled as
  resolving the user document and projecting its id; a lookup that yields
  null throws (a property access on null), taking the catch branch.  In the
  delete handler the variable holding that id is compared and filtered
  through a further `._id` projection; both uses are modelled as the
  caller's id.
* Two statement-level errors in the source are modelled as thrown errors:
  the success line `res.status(200).res.json(...)` of both GET handlers
  reads the property `.res` of the response object, which is undefined, so
  the subsequent call throws; and the delete handler's fallback branch
  filters on `senderId: userId` where the identifier `userId` is not
  defined anywhere in scope, which throws a ReferenceError before the store
  is touched.
* The Message and Group schemas (src/models/Message.js, src/models/Group.js)
  are not under src/; where their behaviour decides a claim it is modelled
  from the spec and marked as such on the definition.
-/

namespace GroupChat

/-- A user record (src/unnamed/part_000, the User schema): a username and a
display name, plus the document id. -/
structure User where
  id : Nat
  username : String
  displayName : String
deriving DecidableEq

/-- Modelled from the spec: the Group schema (src/models/Group.js is not under
src/). Spec section 3: identifier, name, admin identifier, set of member
identifiers, set of invitee identifiers. -/
structure Group where
  id : Nat
  name : String
  adminId : Nat
  members : List Nat
  invitees : List Nat
deriving DecidableEq

/-- Modelled from the spec: the Message schema (src/models/Message.js is not
under src/). Spec section 3: group identifier, sender identifier, content,
sent timestamp (the field the routes sort on is called dateSent), edited
flag. -/
structure Message where
  id : Nat
  groupId : Nat
  senderId : Nat
  content : String
  dateSent : Nat
  edited : Bool
deriving DecidableEq

/-- The database state: the users, groups and messages collections, a
fresh-id counter for newly saved documents and the current time used for
creation timestamps. -/
structure DB where
  users : List User
  groups : List Group
  messages : List Message
  nextId : Nat
  now : Nat
deriving DecidableEq

/-- The errors a handler body can throw, caught by the route's try/catch:
a TypeError (property access on null or undefined), a ReferenceError (an
identifier that is not defined), or a schema validation error from save. -/
inductive JsErr where
  | typeError
  | referenceError
  | validationError
deriving DecidableEq

/-- The data part of a handler's JSON response: null, one message, or a list
of messages. -/
inductive RespData where
  | noData
  | one (m : Message)
  | many (l : List Message)
deriving DecidableEq

/-- An HTTP response as the handlers build it: status code, success flag and
data payload. -/
structure Resp where
  status : Nat
  success : Bool
  data : RespData
deriving DecidableEq

/-- The catch branch shared by every route: status 500 with success false
and the error object (not modelled further) as payload. -/
def err500 : Resp := ⟨500, false, RespData.noData⟩

/-- User.findOne on a username filter: the first user with that username. -/
def findUser (db : DB) (uname : String) : Option User :=
  db.users.find? (fun u => u.username == uname)

/-- Group.findOne on the filter with the group id and a members element:
the first group with that id having the given user among its members. -/
def findGroupMember (db : DB) (gid uid : Nat) : Option Group :=
  db.groups.find? (fun g => g.id == gid && g.members.contains uid)

/-- Group.find on the same filter (the list handler uses find, not findOne):
all matching groups; an empty result is not an error. -/
def findGroupsMember (db : DB) (gid uid : Nat) : List Group :=
  db.groups.filter (fun g => g.id == gid && g.members.contains uid)

/-- Ordering of messages by sent date, the sort key of the list route. -/
def msgLe (a b : Message) : Prop := a.dateSent ≤ b.dateSent

instance : DecidableRel msgLe := fun a b => Nat.decLe a.dateSent b.dateSent

instance : IsTotal Message msgLe := ⟨fun a b => Nat.le_total a.dateSent b.dateSent⟩

instance : IsTrans Message msgLe := ⟨fun _ _ _ h1 h2 => Nat.le_trans h1 h2⟩

/-- The driver's stable sort on the dateSent key, modelled by insertion
sort. -/
def sortByDateSent (l : List Message) : List Message :=
  List.insertionSort msgLe l

/-- The query of the list route: Message.find on the group id, sorted by
dateSent ascending. -/
def listMessagesQuery (db : DB) (gid : Nat) : List Message :=
  sortByDateSent (db.messages.filter (fun m => m.groupId == gid))

/-- Modelled from the spec: the Message schema's save validation and default
(src/models/Message.js is not under src/). Spec sections 3 and 4.2: content
is required non-empty (a Validation error otherwise) and the sent timestamp
is set at creation, modelled as the ambient clock of the database state.
The handler supplies groupId, senderId, content and the edited flag. -/
def saveMessage (db : DB) (gid sender : Nat) (content : String) (edited : Bool) :
    Except JsErr (DB × Message) :=
  if content = "" then Except.error JsErr.validationError
  else
    let m : Message := ⟨db.nextId, gid, sender, content, db.now, edited⟩
    Except.ok ({db with messages := db.messages ++ [m], nextId := db.nextId + 1}, m)

/-- Body of GET /:groupId (list messages). The membership query's result is
discarded, so an empty result does not stop the handler; the messages are
queried and sorted; then the success line reads the undefined property
`.res` of the response object and throws, so the body always ends in the
catch branch. -/
def listBody (db : DB) (gid : Nat) (uname : String) : Except JsErr (DB × Resp) :=
  match findUser db uname with
  | none => Except.error JsErr.typeError
  | some u =>
    let _groups := findGroupsMember db gid u.id
    let messages := listMessagesQuery db gid
    let _wouldSend : Resp := ⟨200, true, RespData.many messages⟩
    Except.error JsErr.typeError

/-- GET /:groupId (list messages), with the route's try/catch applied. -/
def listHandler (db : DB) (gid : Nat) (uname : String) : DB × Resp :=
  match listBody db gid uname with
  | Except.ok r => r
  | Except.error _ => (db, err500)

/-- Body of the second GET handler. Its comment documents the route
/:groupId/:messageId, but the code registers the path /:groupId again, so
messageId is never bound and the undefined filter field is dropped by the
driver; the remaining filter looks for a message whose own id equals the
GROUP id. There is no NotFound branch, and the success line has the same
undefined `.res` access as the list handler, so the body always throws. -/
def getMessageBody (db : DB) (gid : Nat) (uname : String) : Except JsErr (DB × Resp) :=
  match findUser db uname with
  | none => Except.error JsErr.typeError
  | some u =>
    let _groups := findGroupsMember db gid u.id
    let message := db.messages.find? (fun m => m.id == gid)
    let _wouldSend : Resp :=
      ⟨200, true, match message with
                  | some m => RespData.one m
                  | none => RespData.noData⟩
    Except.error JsErr.typeError

/-- The second GET handler with the route's try/catch applied. (As
registered it is additionally unreachable: it shares method and path with
the first GET handler, which always responds first.) -/
def getMessageHandler (db : DB) (gid : Nat) (uname : String) : DB × Resp :=
  match getMessageBody db gid uname with
  | Except.ok r => r
  | Except.error _ => (db, err500)

/-- Body of POST /:groupId (create message). The membership findOne result
is discarded (a null result is not an error and stops nothing), then the
message is saved and answered with status 201. -/
def createBody (db : DB) (gid : Nat) (uname content : String) : Except JsErr (DB × Resp) :=
  match findUser db uname with
  | none => Except.error JsErr.typeError
  | some u =>
    let _grp := findGroupMember db gid u.id
    match saveMessage db gid u.id content false with
    | Except.error e => Except.error e
    | Except.ok (db2, m) => Except.ok (db2, ⟨201, true, RespData.one m⟩)

/-- POST /:groupId (create message), with the route's try/catch applied. -/
def createHandler (db : DB) (gid : Nat) (uname content : String) : DB × Resp :=
  match createBody db gid uname content with
  | Except.ok r => r
  | Except.error _ => (db, err500)

/-- The filter of the delete route's findOneAndDelete in the admin branch:
message id and group id. -/
def delPred (mid gidv : Nat) (m : Message) : Bool :=
  m.id == mid && m.groupId == gidv

/-- Body of DELETE /:groupId/:messageId. Here the membership findOne result
IS used: a null group makes the `group.adminId` access throw. In the admin
branch findOneAndDelete removes the first match and its result is not
inspected, so the route answers 204 whether or not anything was deleted.
The fallback branch for a non-admin caller filters on `senderId: userId`
where the identifier userId is not defined, throwing a ReferenceError
before the store is touched. -/
def deleteBody (db : DB) (gid mid : Nat) (uname : String) : Except JsErr (DB × Resp) :=
  match findUser db uname with
  | none => Except.error JsErr.typeError
  | some u =>
    match findGroupMember db gid u.id with
    | none => Except.error JsErr.typeError
    | some group =>
      if group.adminId = u.id then
        let db2 := {db with messages := db.messages.eraseP (delPred mid group.id)}
        Except.ok (db2, ⟨204, true, RespData.noData⟩)
      else
        Except.error JsErr.referenceError

/-- DELETE /:groupId/:messageId, with the route's try/catch applied. -/
def deleteHandler (db : DB) (gid mid : Nat) (uname : String) : DB × Resp :=
  match deleteBody db gid mid uname with
  | Except.ok r => r
  | Except.error _ => (db, err500)

/-- The filter of the update route's findOneAndUpdate: message id, group id
and the caller's id as senderId. -/
def updPred (mid gidv uid : Nat) (m : Message) : Bool :=
  m.id == mid && m.groupId == gidv && m.senderId == uid

/-- findOneAndUpdate's write: replace the first match of the filter by its
updated version, leaving everything else unchanged. -/
def updateFirst (p : Message → Bool) (f : Message → Message) : List Message → List Message
  | [] => []
  | m :: ms => if p m then f m :: ms else m :: updateFirst p f ms

/-- Body of PATCH /:groupId/:messageId (update message). The membership
findOne result is discarded. findOneAndUpdate filters on the caller's id as
senderId, sets the content and forces edited to true on the first match,
and yields the PRE-update document (no option requesting the updated one is
passed); a null result is not an error, the route answers 200 with data
null in that case. -/
def updateBody (db : DB) (gid mid : Nat) (uname content : String) :
    Except JsErr (DB × Resp) :=
  match findUser db uname with
  | none => Except.error JsErr.typeError
  | some u =>
    let _grp := findGroupMember db gid u.id
    match db.messages.find? (updPred mid gid u.id) with
    | none => Except.ok (db, ⟨200, true, RespData.noData⟩)
    | some old =>
      let newMsgs := updateFirst (updPred mid gid u.id)
        (fun m => {m with content := content, edited := true}) db.messages
      Except.ok ({db with messages := newMsgs}, ⟨200, true, RespData.one old⟩)

/-- PATCH /:groupId/:messageId, with the route's try/catch applied. -/
def updateHandler (db : DB) (gid mid : Nat) (uname content : String) : DB × Resp :=
  match updateBody db gid mid uname content with
  | Except.ok r => r
  | Except.error _ => (db, err500)

/-- Fixture: group 10 has the single member alice (id 1, the admin); eve (id 2)
exists but is not a member; no messages yet. -/
def dbSolo : DB :=
  ⟨[⟨1, "alice", "Alice"⟩, ⟨2, "eve", "Eve"⟩], [⟨10, "g", 1, [1], []⟩], [], 100, 5⟩

/-- Fixture: group 10 has members alice (id 1, the admin) and bob (id 2); bob has
sent message 50 with content hello at time 3. -/
def dbPair : DB :=
  ⟨[⟨1, "alice", "Alice"⟩, ⟨2, "bob", "Bob"⟩], [⟨10, "g", 1, [1, 2], []⟩],
   [⟨50, 10, 2, "hello", 3, false⟩], 100, 9⟩

/-- Fixture: group 10 has the single member alice (id 1, the admin), who has sent
message 50. -/
def dbMsg : DB :=
  ⟨[⟨1, "alice", "Alice"⟩], [⟨10, "g", 1, [1], []⟩], [⟨50, 10, 1, "hello", 3, false⟩],
   100, 9⟩

/-- Fixture: alice is the sole member of groups 10 and 77; group 10 holds messages
52 (time 7) and 51 (time 4), stored out of date order; message 53 belongs to another
group; group 77 has no messages. -/
def dbList : DB :=
  ⟨[⟨1, "alice", "Alice"⟩], [⟨10, "g", 1, [1], []⟩, ⟨77, "h", 1, [1], []⟩],
   [⟨52, 10, 1, "b", 7, false⟩, ⟨51, 10, 1, "a", 4, false⟩, ⟨53, 11, 1, "c", 1, false⟩],
   100, 9⟩

/-- The update filter holds exactly when the message has the given id, group and
sender. -/
theorem updPred_eq_true_iff (mid gidv uid : Nat) (m : Message) :
    updPred mid gidv uid m = true ↔ (m.id = mid ∧ m.groupId = gidv ∧ m.senderId = uid) := by
  simp [updPred, and_assoc]

/-- The delete filter holds exactly when the message has the given id and group. -/
theorem delPred_eq_true_iff (mid gidv : Nat) (m : Message) :
    delPred mid gidv m = true ↔ (m.id = mid ∧ m.groupId = gidv) := by
  simp [delPred]

/-- If the find of a filter yields a document, then after updateFirst with that
filter the updated version of that document is in the list. -/
theorem updateFirst_mem_of_find (p : Message → Bool) (f : Message → Message) :
    ∀ (l : List Message) (a : Message), l.find? p = some a → f a ∈ updateFirst p f l := by
  intro l
  induction l with
  | nil => intro a h; simp at h
  | cons x xs ih =>
    intro a h
    cases hp : p x with
    | true =>
      rw [List.find?_cons_of_pos _ hp] at h
      cases h
      simp [updateFirst, hp]
    | false =>
      rw [List.find?_cons_of_neg _ (by simp [hp])] at h
      simp only [updateFirst, hp, Bool.false_eq_true, if_false]
      exact List.mem_cons_of_mem x (ih a h)

/-- Claim C1, refuted by the code: eve (id 2) is not a member of group 10 — the
membership lookup yields none — yet the create route stores her message and answers
201 with success true. The list, create and update handlers discard the result of
the membership query, so a non-member request is not stopped: no Forbidden failure
occurs and the store is mutated on behalf of a non-member. -/
theorem c1_nonmember_create_succeeds :
    findGroupMember dbSolo 10 2 = none ∧
    (findUser dbSolo "eve").map User.id = some 2 ∧
    createHandler dbSolo 10 "eve" "hi" =
      ({dbSolo with messages := [⟨100, 10, 2, "hi", 5, false⟩], nextId := 101},
       ⟨201, true, RespData.one ⟨100, 10, 2, "hi", 5, false⟩⟩) := by
  decide

/-- Claim C2, refuted by the code: bob (id 2) is a member and the sender of message
50 but not the admin; his delete request takes the fallback branch, which references
the undefined identifier userId and throws a ReferenceError, so the route answers
500 and deletes nothing. The admin alice, who is not the sender, deletes the same
message successfully with 204 — the admin half of the claim holds, the sender half
never succeeds. -/
theorem c2_sender_delete_throws :
    deleteHandler dbPair 10 50 "bob" = (dbPair, ⟨500, false, RespData.noData⟩) ∧
    deleteHandler dbPair 10 50 "alice" =
      ({dbPair with messages := []}, ⟨204, true, RespData.noData⟩) := by
  decide

/-- Claim C3 counterexample: alice is the group admin but not the sender of message
50; her update request answers status 200 with success true and data null — not a
Forbidden failure — with the store unchanged. -/
theorem c3_counterexample :
    updateHandler dbPair 10 50 "alice" "new" = (dbPair, ⟨200, true, RespData.noData⟩) := by
  decide

/-- Claim C3 as amended: an update by a caller who is not the sender of any matching
message performs no write — the store is unchanged — but the route answers 200 with
success true and data null instead of failing with Forbidden. -/
theorem c3_nonsender_update_silent (db : DB) (gid mid : Nat) (u : User)
    (uname content : String) (hu : findUser db uname = some u)
    (hns : ∀ m ∈ db.messages, ¬(m.id = mid ∧ m.groupId = gid ∧ m.senderId = u.id)) :
    updateHandler db gid mid uname content = (db, ⟨200, true, RespData.noData⟩) := by
  have hfind : db.messages.find? (updPred mid gid u.id) = none := by
    rw [List.find?_eq_none]
    intro m hm hpm
    exact hns m hm ((updPred_eq_true_iff mid gid u.id m).mp hpm)
  simp [updateHandler, updateBody, hu, hfind]

/-- Witness for C3 as amended: bob is not the sender of any message with id 99 in
group 10 (there is none), and his update answers 200 with null data, unchanged
store. -/
theorem c3_nonsender_update_silent_witness :
    updateHandler dbPair 10 99 "bob" "x" = (dbPair, ⟨200, true, RespData.noData⟩) :=
  c3_nonsender_update_silent dbPair 10 99 ⟨2, "bob", "Bob"⟩ "bob" "x" (by decide)
    (by decide)

/-- Claim C4 counterexample: bob updates his own message 50 from hello to hi; the
store now holds the new content with edited true, but the Message value in the
route's response is the PRE-update document — content hello, edited false — because
findOneAndUpdate yields the document as it was before the write. -/
theorem c4_counterexample :
    updateHandler dbPair 10 50 "bob" "hi" =
      ({dbPair with messages := [⟨50, 10, 2, "hi", 3, true⟩]},
       ⟨200, true, RespData.one ⟨50, 10, 2, "hello", 3, false⟩⟩) := by
  decide

/-- Claim C4 as amended: when the sender updates a matching message, the stored
message is rewritten with the new content and the edited flag forced to true, but
the Message value the route returns is the pre-update document, not the updated
one. -/
theorem c4_sender_update_stores_returns_old (db : DB) (gid mid : Nat) (u : User)
    (uname content : String) (old : Message)
    (hu : findUser db uname = some u)
    (hf : db.messages.find? (updPred mid gid u.id) = some old) :
    {old with content := content, edited := true} ∈
      (updateHandler db gid mid uname content).1.messages ∧
    (updateHandler db gid mid uname content).2 = ⟨200, true, RespData.one old⟩ := by
  have hmem := updateFirst_mem_of_find (updPred mid gid u.id)
    (fun m => {m with content := content, edited := true}) db.messages old hf
  simp only [updateHandler, updateBody, hu, hf]
  exact ⟨hmem, trivial⟩

/-- Witness for C4 as amended: bob updates message 50 to hi; the updated document is
in the store and the response carries the old one. -/
theorem c4_sender_update_stores_returns_old_witness :
    (⟨50, 10, 2, "hi", 3, true⟩ : Message) ∈
      (updateHandler dbPair 10 50 "bob" "hi").1.messages ∧
    (updateHandler dbPair 10 50 "bob" "hi").2 =
      ⟨200, true, RespData.one ⟨50, 10, 2, "hello", 3, false⟩⟩ :=
  c4_sender_update_stores_returns_old dbPair 10 50 ⟨2, "bob", "Bob"⟩ "bob" "hi"
    ⟨50, 10, 2, "hello", 3, false⟩ (by decide) (by decide)

/-- Claim C5 counterexample: the admin deletes message id 99, which does not exist
in group 10; the route answers 204 with success true and the store unchanged — a
silent success, not NotFound. Deleting message 50 twice likewise answers 204 both
times. -/
theorem c5_counterexample :
    deleteHandler dbPair 10 99 "alice" = (dbPair, ⟨204, true, RespData.noData⟩) ∧
    deleteHandler (deleteHandler dbPair 10 50 "alice").1 10 50 "alice" =
      ({dbPair with messages := []}, ⟨204, true, RespData.noData⟩) := by
  decide

/-- Claim C5 as amended: for an admin caller, deleting a message id with no matching
message in the group answers 204 with success true and leaves the store unchanged —
findOneAndDelete's result is never inspected, so a missing message (in particular
the second of two deletes of the same id) yields a silent success, never NotFound. -/
theorem c5_admin_delete_missing_silent (db : DB) (gid mid : Nat) (u : User) (g : Group)
    (uname : String) (hu : findUser db uname = some u)
    (hg : findGroupMember db gid u.id = some g) (hadmin : g.adminId = u.id)
    (hnone : ∀ m ∈ db.messages, ¬(m.id = mid ∧ m.groupId = g.id)) :
    deleteHandler db gid mid uname = (db, ⟨204, true, RespData.noData⟩) := by
  have herase : db.messages.eraseP (delPred mid g.id) = db.messages := by
    apply List.eraseP_of_forall_not
    intro a ha hpa
    exact hnone a ha ((delPred_eq_true_iff mid g.id a).mp hpa)
  simp [deleteHandler, deleteBody, hu, hg, hadmin, herase]

/-- Witness for C5 as amended: alice, the admin, deletes the absent message 99 and
the route answers 204 with the store unchanged. -/
theorem c5_admin_delete_missing_silent_witness :
    deleteHandler dbPair 10 99 "alice" = (dbPair, ⟨204, true, RespData.noData⟩) :=
  c5_admin_delete_missing_silent dbPair 10 99 ⟨1, "alice", "Alice"⟩
    ⟨10, "g", 1, [1, 2], []⟩ "alice" (by decide) (by decide) rfl (by decide)

/-- Claim C6: a create by a group member stores a new message whose senderId is the
caller's id, whose dateSent is the creation time and whose edited flag is false,
answering 201 with exactly that message. (The membership hypothesis delimits the
claim's scope; the code itself discards the membership check, see C1. The dateSent
default is the part modelled from the spec, the Message schema being outside
src/.) -/
theorem c6_member_create (db : DB) (gid : Nat) (u : User) (uname content : String)
    (hu : findUser db uname = some u)
    (_hmem : ∃ g, g ∈ db.groups ∧ g.id = gid ∧ u.id ∈ g.members)
    (hne : ¬ content = "") :
    createHandler db gid uname content =
      ({db with messages := db.messages ++ [⟨db.nextId, gid, u.id, content, db.now, false⟩],
                nextId := db.nextId + 1},
       ⟨201, true, RespData.one ⟨db.nextId, gid, u.id, content, db.now, false⟩⟩) := by
  simp [createHandler, createBody, saveMessage, hu, hne]

/-- Witness for C6: alice, a member of group 10, creates the message hello; it is
stored with her id, the current time 5 and edited false, and answered with 201. -/
theorem c6_member_create_witness :
    createHandler dbSolo 10 "alice" "hello" =
      ({dbSolo with messages := [⟨100, 10, 1, "hello", 5, false⟩], nextId := 101},
       ⟨201, true, RespData.one ⟨100, 10, 1, "hello", 5, false⟩⟩) :=
  c6_member_create dbSolo 10 ⟨1, "alice", "Alice"⟩ "alice" "hello" (by decide)
    ⟨⟨10, "g", 1, [1], []⟩, by decide, rfl, by decide⟩ (by decide)

/-- Claim C7: a create with empty content stores nothing — the schema rejects the
empty required content field with a validation error, the route catches it and
answers 500 with success false, and the store is unchanged, whoever the caller
is. -/
theorem c7_empty_content_rejected (db : DB) (gid sid : Nat) (uname : String) :
    (createHandler db gid uname "").2.status = 500 ∧
    (createHandler db gid uname "").2.success = false ∧
    (createHandler db gid uname "").1 = db ∧
    saveMessage db gid sid "" false = Except.error JsErr.validationError := by
  unfold createHandler createBody saveMessage
  cases findUser db uname <;> simp [err500]

/-- Claim C8: the list route's query yields exactly the messages of the group — a
permutation of the store filtered to that group id — in non-decreasing dateSent
order, and the empty sequence, not an error, when the group has no messages.
(Delivery of this computed list over HTTP is settled separately under C10.) -/
theorem c8_list_exact_sorted (db : DB) (gid : Nat) :
    (listMessagesQuery db gid).Perm (db.messages.filter (fun m => m.groupId == gid)) ∧
    List.Sorted msgLe (listMessagesQuery db gid) ∧
    (db.messages.filter (fun m => m.groupId == gid) = [] →
      listMessagesQuery db gid = []) := by
  refine ⟨?_, ?_, ?_⟩
  · unfold listMessagesQuery sortByDateSent
    exact List.perm_insertionSort msgLe _
  · unfold listMessagesQuery sortByDateSent
    exact List.sorted_insertionSort msgLe _
  · intro h
    unfold listMessagesQuery sortByDateSent
    rw [h]
    rfl

/-- Witness for C8: in dbList the query on group 10 is a permutation of the two
stored messages of that group, sorted by dateSent, and the query on the empty group
77 is the empty list. -/
theorem c8_list_exact_sorted_witness :
    (listMessagesQuery dbList 10).Perm
      (dbList.messages.filter (fun m => m.groupId == 10)) ∧
    List.Sorted msgLe (listMessagesQuery dbList 10) ∧
    listMessagesQuery dbList 77 = [] :=
  ⟨(c8_list_exact_sorted dbList 10).1, (c8_list_exact_sorted dbList 10).2.1,
   (c8_list_exact_sorted dbList 77).2.2 (by decide)⟩

/-- Claim C9, refuted by the code: message 50 exists in group 10 and alice is a
member, yet the fetch-one route cannot return it: the handler is registered on the
same path as the list route (so it is shadowed and its own comment documents a
different path), its filter looks for a message whose id equals the GROUP id (a
lookup that here yields nothing, and there is no NotFound branch in any case), and
its success line throws on the undefined property res, answering 500. -/
theorem c9_get_message_broken :
    dbMsg.messages.find? (fun m => m.id == 50 && m.groupId == 10) =
      some ⟨50, 10, 1, "hello", 3, false⟩ ∧
    dbMsg.messages.find? (fun m => m.id == 10) = none ∧
    getMessageHandler dbMsg 10 "alice" = (dbMsg, ⟨500, false, RespData.noData⟩) := by
  decide

/-- Claim C10: the list route's success line reads the undefined property res of the
response object before calling json, so every list request — whatever the database
state, the group and the caller, including a fully authorized member's request on a
valid group — takes the catch branch: the handler answers status 500 with success
false, never delivering the message list, and leaves the store unchanged. -/
theorem c10_list_always_500 (db : DB) (gid : Nat) (uname : String) :
    (listHandler db gid uname).2.status = 500 ∧
    (listHandler db gid uname).2.success = false ∧
    (listHandler db gid uname).1 = db := by
  unfold listHandler listBody
  cases findUser db uname <;> exact ⟨rfl, rfl, rfl⟩

end GroupChat
